import Mathlib

/-!
Verification development for the recording-ai transcription core.

Shallow embedding of:
  * `WhisperService.calculateSimilarity` (Jaccard similarity over token sets),
  * `WhisperService.removeRepetitiveText` (leading-overlap removal),
  * `WhisperService.isRepetitiveText` (repetition heuristic),
  * `WhisperService.cleanFinalText` (global cleanup pass, including the
    JavaScript regular-expression substitutions modelled by a small
    backtracking matcher),
  * `WhisperService.transcribeInChunks` (chunk planner and stitching loop),
  * `FasterWhisperService` daemon supervision (stdout buffering and FIFO
    response correlation, exit handling, request timeout, shutdown).

JavaScript numbers are modelled as `Rat` where fractional values matter
(similarity ratios, timestamps) and as `Nat` for sample indices.  The
similarity thresholds 0.7 / 0.8 / 0.4 / 0.6 are modelled as the exact
rationals 7/10 etc.; for the token-set ratios that actually occur the
IEEE-754 comparison in the source and the exact rational comparison agree,
because a ratio of two small naturals rounds to the double of 0.7 only when
it is exactly 7/10, in which case both comparisons are false.

Rational values are built with `mkRat` and `ratAdd` (below) rather than the
`Rat` field operations, because the latter are `@[irreducible]` and would
block kernel evaluation of concrete instances; `Rat.mkRat_eq_div` and
`ratAdd_eq` connect them to the ordinary `ℚ` operations in proofs.
-/

namespace RecordingAI

/-- Addition on `ℚ`, written so that the kernel can evaluate it (`Rat.add`
is irreducible).  `ratAdd_eq` proves it equal to `+`. -/
def ratAdd (a b : ℚ) : ℚ :=
  mkRat (a.num * b.den + b.num * a.den) (a.den * b.den)

/-- JavaScript `\w` (no `u` flag): ASCII letters, digits, underscore. -/
def jsWordChar (c : Char) : Bool :=
  ('a' ≤ c && c ≤ 'z') || ('A' ≤ c && c ≤ 'Z') || ('0' ≤ c && c ≤ '9') || c == '_'

/-- JavaScript `\s`.  Modelled by `Char.isWhitespace`; the inputs below only
contain ASCII space and newline, on which the two classes agree. -/
def jsWsChar (c : Char) : Bool :=
  c.isWhitespace

/-- Split a character list at every character satisfying `p` (the
semantics of JavaScript `str.split(sep)` for a one-character separator and
of Lean's `String.split`, re-implemented by structural recursion so the
kernel can evaluate it). -/
def splitChars (p : Char → Bool) : List Char → List (List Char)
  | [] => [[]]
  | c :: rest =>
    if p c then [] :: splitChars p rest
    else
      match splitChars p rest with
      | [] => [[c]]
      | h :: t => (c :: h) :: t

/-- `String.toLowerCase` restricted to ASCII case mapping (the inputs in
this development contain only ASCII letters and Japanese characters, which
JavaScript lowercases identically). -/
def jsToLower (s : String) : String :=
  String.mk (s.data.map Char.toLower)

/-- `String.trim` — strip leading and trailing whitespace. -/
def jsTrim (s : String) : String :=
  String.mk (((s.data.dropWhile jsWsChar).reverse.dropWhile jsWsChar).reverse)

/-- Join a list of strings with a separator (JavaScript `Array.join`). -/
def joinWith (sep : String) (l : List String) : String :=
  String.mk (List.intercalate sep.data (l.map String.data))

/-- JavaScript `str.split(/\s+/)`.  A maximal whitespace run is one
separator, so interior empty fields never appear, but a leading (resp.
trailing) empty field appears when the string starts (resp. ends) with
whitespace.  Splitting at every single whitespace character and removing
the interior empty fields while keeping the first and last field
reproduces the JavaScript behaviour. -/
def jsSplitWs (s : String) : List String :=
  match (splitChars jsWsChar s.data).map String.mk with
  | [] => [""]
  | [x] => [x]
  | x :: xs => x :: (xs.dropLast.filter (fun t => t ≠ "")) ++ [xs.getLastD ""]

/-- `WhisperService.calculateSimilarity` (src/unnamed/part_002, lines
328-338): Jaccard similarity of the sets of lowercase whitespace-delimited
tokens; `0` when either argument is the empty string (JavaScript falsiness
of `''`). -/
def calculateSimilarity (text1 text2 : String) : ℚ :=
  if text1 = "" ∨ text2 = "" then 0
  else
    let words1 := (jsSplitWs (jsToLower text1)).toFinset
    let words2 := (jsSplitWs (jsToLower text2)).toFinset
    let inter := words1 ∩ words2
    let union := words1 ∪ words2
    mkRat inter.card union.card

/-- `WhisperService.removeRepetitiveText` (src/unnamed/part_002, lines
298-323): strips a leading run of `currentText`'s tokens that is similar to
the trailing run of `previousText`'s tokens.  The JavaScript loop bound
`i <= min(currentWords.length / 2, previousWords.length / 2, 10)` uses real
division; for the integer counter `i` this is equivalent to
`i ≤ min(⌊cur/2⌋, ⌊prev/2⌋, 10)`, which is the `Nat`-division bound used
here.  The last `i` whose similarity exceeds 0.7 wins. -/
def removeRepetitiveText (currentText previousText : String) : String :=
  if currentText = "" ∨ previousText = "" then currentText
  else
    let currentWords := jsSplitWs currentText
    let previousWords := jsSplitWs previousText
    let maxOverlap := min (min (currentWords.length / 2) (previousWords.length / 2)) 10
    let overlapEnd := (List.range maxOverlap).foldl (fun acc j =>
      let i := j + 1
      let currentStart := jsToLower (joinWith " " (currentWords.take i))
      let previousEnd :=
        jsToLower (joinWith " " (previousWords.drop (previousWords.length - i)))
      if calculateSimilarity currentStart previousEnd > mkRat 7 10 then i else acc) 0
    if 0 < overlapEnd then joinWith " " (currentWords.drop overlapEnd)
    else currentText

/-! ### JavaScript regular expressions used by `cleanFinalText`

`WhisperService.cleanFinalText` applies four global regex substitutions.
They are modelled by a small backtracking matcher over an explicit pattern
syntax: character classes, the word-boundary assertion `\b`, one capture
group, the backreference `\1`, concatenation, and greedy bounded/unbounded
repetition — exactly the constructs those four patterns use.  Greedy
preference order and leftmost-match global replacement follow JavaScript
semantics.  The matcher is fuel-indexed for structural termination; the
fuel supplied by `tryMatchAt` dominates the recursion depth needed for
these patterns (a constant plus two levels per consumed character). -/

/-- Pattern syntax for the four `cleanFinalText` regexes. -/
inductive RE where
  | cls (p : Char → Bool)
  | wb
  | grp (r : RE)
  | bref
  | seq (a b : RE)
  | rep (lo : Nat) (hi : Option Nat) (r : RE)

/-- JavaScript `\b` at position `i` of `s`: exactly one neighbour is a
`\w` character (out-of-range counts as non-word). -/
def wbAt (s : List Char) (i : Nat) : Bool :=
  let prev := match i with
    | 0 => false
    | j+1 => match s.get? j with | some c => jsWordChar c | none => false
  let cur := match s.get? i with | some c => jsWordChar c | none => false
  prev != cur

/-- Backtracking matcher in continuation-passing style.  `norm` normalises
characters for backreference comparison (`Char.toLower` models the `i`
flag, `id` its absence).  `cap` is the text captured by group 1, if any.
Greedy repetition tries the longer continuation first and falls back, so
the first success is the JavaScript match. -/
def reMatch (norm : Char → Char) (s : List Char) :
    Nat → RE → Nat → Option (List Char) →
    (Nat → Option (List Char) → Option (Nat × Option (List Char))) →
    Option (Nat × Option (List Char))
  | 0, _, _, _, _ => none
  | fuel+1, re, pos, cap, k =>
    match re with
    | .cls p =>
      match s.get? pos with
      | some c => if p c then k (pos+1) cap else none
      | none => none
    | .wb => if wbAt s pos then k pos cap else none
    | .grp r =>
      reMatch norm s fuel r pos cap (fun p2 _ => k p2 (some ((s.drop pos).take (p2 - pos))))
    | .bref =>
      match cap with
      | none => k pos cap
      | some g =>
        if (g.map norm).isPrefixOf ((s.drop pos).map norm) then k (pos + g.length) cap
        else none
    | .seq a b => reMatch norm s fuel a pos cap (fun p2 c2 => reMatch norm s fuel b p2 c2 k)
    | .rep lo hi r =>
      let canMore := match hi with | some h => decide (0 < h) | none => true
      let tryMore :=
        if canMore then
          reMatch norm s fuel r pos cap (fun p2 c2 =>
            if p2 = pos then none
            else reMatch norm s fuel (.rep (lo - 1) (hi.map (fun h => h - 1)) r) p2 c2 k)
        else none
      match tryMore with
      | some res => some res
      | none => if lo = 0 then k pos cap else none

/-- Attempt a match of `re` at position `i` (anchored there), returning the
end position and the group-1 capture. -/
def tryMatchAt (norm : Char → Char) (s : List Char) (re : RE) (i : Nat) :
    Option (Nat × Option (List Char)) :=
  reMatch norm s (2 * s.length + 100) re i none (fun p c => some (p, c))

/-- Global replacement scan (JavaScript `str.replace(/re/g, repl)`): find
the leftmost match from the current index, emit the replacement, continue
after it; unmatched characters are copied.  (The patterns used here cannot
match the empty string, so the scan stops at the end of the input.) -/
def replaceGo (norm : Char → Char) (s : List Char) (re : RE)
    (mkRepl : Option (List Char) → List Char) :
    Nat → Nat → List Char → List Char
  | 0, i, acc => acc ++ s.drop i
  | fuel+1, i, acc =>
    if i < s.length then
      match tryMatchAt norm s re i with
      | some (e, cap) =>
        if i < e then replaceGo norm s re mkRepl fuel e (acc ++ mkRepl cap)
        else replaceGo norm s re mkRepl fuel (i+1) (acc ++ mkRepl cap ++ (s.drop i).take 1)
      | none => replaceGo norm s re mkRepl fuel (i+1) (acc ++ (s.drop i).take 1)
    else acc

/-- JavaScript `str.replace(/re/g, repl)`. -/
def jsReplaceAll (norm : Char → Char) (re : RE)
    (mkRepl : Option (List Char) → List Char) (s : String) : String :=
  String.mk (replaceGo norm s.data re mkRepl (s.data.length + 1) 0 [])

/-- The punctuation class `[、。，．,.]` of the cleanup regexes. -/
def punctCls (c : Char) : Bool :=
  c == '、' || c == '。' || c == '，' || c == '．' || c == ',' || c == '.'

/-- Sentence-terminal punctuation class `[.!?。！？]`. -/
def sentPunct (c : Char) : Bool :=
  c == '.' || c == '!' || c == '?' || c == '。' || c == '！' || c == '？'

/-- The character class `[\w぀-ゟ゠-ヿ一-龯]`
(word characters, hiragana, katakana, CJK ideographs). -/
def jpWordCls (c : Char) : Bool :=
  jsWordChar c || ('぀' ≤ c && c ≤ 'ゟ') || ('゠' ≤ c && c ≤ 'ヿ')
    || ('一' ≤ c && c ≤ '龯')

/-- JavaScript `.` without the `s` flag: any character but a line
terminator. -/
def jsDot (c : Char) : Bool :=
  !(c == '\n' || c == '\r' || c == '\u2028' || c == '\u2029')

/-- `\s*`. -/
def wsStar : RE := .rep 0 none (.cls jsWsChar)

/-- Regex 1 of `cleanFinalText`:
`(\b[\w぀-ゟ゠-ヿ一-龯]+[、。，．,.])\s*(\1\s*){3,}`. -/
def reP1 : RE :=
  .seq (.grp (.seq .wb (.seq (.rep 1 none (.cls jpWordCls)) (.cls punctCls))))
       (.seq wsStar (.rep 3 none (.seq .bref wsStar)))

/-- Regex 2 of `cleanFinalText`: `(\b.{1,20}[、。，．,.])\s*(\1\s*){2,}`. -/
def reP2 : RE :=
  .seq (.grp (.seq .wb (.seq (.rep 1 (some 20) (.cls jsDot)) (.cls punctCls))))
       (.seq wsStar (.rep 2 none (.seq .bref wsStar)))

/-- Regex 3 of `cleanFinalText`: `\b(\w+)(\s+\1){4,}` with the `i` flag. -/
def reP3 : RE :=
  .seq .wb (.seq (.grp (.rep 1 none (.cls jsWordChar)))
                 (.rep 4 none (.seq (.rep 1 none (.cls jsWsChar)) .bref)))

/-- Regex 4 of `cleanFinalText`:
`\([^)]*(\b[\w぀-ゟ゠-ヿ一-龯]+[、。，．,.]\s*){5,}[^)]*\)`. -/
def reP4 : RE :=
  .seq (.cls (fun c => c == '('))
    (.seq (.rep 0 none (.cls (fun c => !(c == ')'))))
      (.seq (.rep 5 none
              (.seq .wb (.seq (.rep 1 none (.cls jpWordCls)) (.seq (.cls punctCls) wsStar))))
        (.seq (.rep 0 none (.cls (fun c => !(c == ')'))))
          (.cls (fun c => c == ')')))))

/-- JavaScript `text.split(/[.!?。！？]\s*/)`: one terminal-punctuation
character plus any following whitespace is one separator. -/
def sentSplitGo : List Char → Bool → List Char → List (List Char) → List (List Char)
  | [], _, cur, acc => acc ++ [cur]
  | c :: rest, skipWs, cur, acc =>
    if skipWs && jsWsChar c then sentSplitGo rest true cur acc
    else if sentPunct c then sentSplitGo rest true [] (acc ++ [cur])
    else sentSplitGo rest false (cur ++ [c]) acc

/-- Split on sentence-terminal punctuation followed by whitespace. -/
def splitSentences (s : String) : List String :=
  (sentSplitGo s.data false [] []).map String.mk

/-- `replace(/\s+/g, ' ')`. -/
def collapseWsGo : List Char → Bool → List Char
  | [], _ => []
  | c :: rest, inWs =>
    if jsWsChar c then
      if inWs then collapseWsGo rest true else ' ' :: collapseWsGo rest true
    else c :: collapseWsGo rest false

/-- Collapse whitespace runs to a single space. -/
def collapseWs (s : String) : String := String.mk (collapseWsGo s.data false)

/-- `replace(/([.!?。！？])\1+/g, '$1')`: collapse a run of the same
terminal-punctuation character to one occurrence. -/
def punctDedupGo : List Char → Option Char → List Char
  | [], _ => []
  | c :: rest, last =>
    if sentPunct c && last == some c then punctDedupGo rest last
    else c :: punctDedupGo rest (if sentPunct c then some c else none)

/-- Collapse repeated identical terminal punctuation. -/
def punctDedup (s : String) : String := String.mk (punctDedupGo s.data none)

/-- The sentence-similarity deduplication loop of `cleanFinalText`
(src/unnamed/part_002, lines 361-380): keep at most 2 consecutive
sentences whose similarity to the previous kept comparison point exceeds
0.8. -/
def dedupSentencesGo : List String → Nat → String → List String → List String
  | [], _, _, acc => acc
  | sntc :: rest, consecutiveCount, lastSentence, acc =>
    let trimmed := jsTrim sntc
    if trimmed = "" then dedupSentencesGo rest consecutiveCount lastSentence acc
    else if calculateSimilarity trimmed lastSentence > mkRat 4 5 then
      let count2 := consecutiveCount + 1
      dedupSentencesGo rest count2 trimmed (if count2 ≤ 2 then acc ++ [trimmed] else acc)
    else dedupSentencesGo rest 1 trimmed (acc ++ [trimmed])

/-- `WhisperService.cleanFinalText` (src/unnamed/part_002, lines 343-389):
the four global regex substitutions, the sentence-similarity
deduplication, rejoining with `". "`, whitespace collapsing, terminal
punctuation deduplication, and a final trim. -/
def cleanFinalText (text : String) : String :=
  if text = "" ∨ jsTrim text = "" then text
  else
    let c1 := jsReplaceAll id reP1 (fun cap => cap.getD []) text
    let c2 := jsReplaceAll id reP2 (fun cap => cap.getD []) c1
    let c3 := jsReplaceAll Char.toLower reP3 (fun cap => cap.getD []) c2
    let c4 := jsReplaceAll id reP4 (fun _ => []) c3
    let sentences := splitSentences c4
    let uniqueSentences := dedupSentencesGo sentences 1 "" []
    let c5 := joinWith ". " uniqueSentences
    let c6 := collapseWs c5
    let c7 := punctDedup c6
    jsTrim c7

/-! ### Repetition detector -/

/-- `word.replace(/[^\w]/g, '')`. -/
def stripNonWord (w : String) : String := String.mk (w.data.filter jsWordChar)

/-- `WhisperService.isRepetitiveText` (src/unnamed/part_002, lines
255-293): short-text guard, token-frequency check (any normalised token
above 40% of qualifying tokens), then adjacent-phrase similarity check.
`mkRat _ 0 = 0` models the JavaScript `NaN > 0.4 = false` when no token
qualifies. -/
def isRepetitiveText (text : String) : Bool :=
  if text = "" ∨ text.length < 20 then false
  else
    let words := jsSplitWs text
    if words.length < 5 then false
    else
      let norms := (words.map (fun w => stripNonWord (jsToLower w))).filter
        (fun w => 2 < w.length)
      let totalWords := (words.filter (fun w => 2 < (stripNonWord w).length)).length
      if norms.any (fun w => mkRat (norms.count w) totalWords > mkRat 2 5) then true
      else
        let phrases := splitSentences text
        if 3 ≤ phrases.length then
          let repetitiveCount :=
            ((phrases.tail.zip phrases).filter
              (fun p => calculateSimilarity p.1 p.2 > mkRat 4 5)).length
          if mkRat repetitiveCount phrases.length > mkRat 3 5 then true else false
        else false

/-! ### Chunk planner and stitching loop -/

def sampleRate : Nat := 16000

def chunkDurationSeconds : Nat := 120

def chunkSize : Nat := chunkDurationSeconds * sampleRate

def overlapSeconds : Nat := 5

def overlapSize : Nat := overlapSeconds * sampleRate

/-- The start indices visited by the loop
`for (let start = 0; start < N; start += chunkSize - overlapSize)`.
Fuel-indexed so the kernel can evaluate it; the step is 1,840,000 ≥ 1, so
the loop runs at most `N + 1` times and the fuel used by `chunkStarts`
is never exhausted. -/
def chunkStartsAux (N : Nat) : Nat → Nat → List Nat
  | 0, _ => []
  | fuel+1, start =>
    if start < N then start :: chunkStartsAux N fuel (start + (chunkSize - overlapSize))
    else []

/-- All loop start indices for a buffer of `N` samples. -/
def chunkStarts (N : Nat) : List Nat := chunkStartsAux N (N + 1) 0

/-- The `(start, end)` windows actually submitted to the backend:
`end = min(start + chunkSize, N)`, and windows shorter than one second
(16,000 samples) are skipped. -/
def chunkWindows (N : Nat) : List (Nat × Nat) :=
  (chunkStarts N).filterMap (fun start =>
    let endIx := min (start + chunkSize) N
    if endIx - start < sampleRate then none else some (start, endIx))

/-- One element of the backend's `result.chunks` array: an optional
timestamp pair, text, and optional confidence. -/
structure RawSeg where
  ts0 : Option ℚ
  ts1 : Option ℚ
  text : String
  confidence : Option ℚ
deriving DecidableEq

/-- One backend invocation result: `{ text, chunks }` (a missing `chunks`
field behaves like `[]`, since the source guards on
`result.chunks && result.chunks.length > 0`). -/
structure RawResult where
  text : String
  chunks : List RawSeg
deriving DecidableEq

/-- An adjusted output segment. -/
structure Seg where
  start : ℚ
  stop : ℚ
  text : String
  confidence : ℚ
deriving DecidableEq

/-- The mutable state of one `transcribeInChunks` call:
`(allText, allSegments, currentOffset, previousChunkText)`. -/
structure StitchState where
  allText : String
  allSegments : List Seg
  currentOffset : ℚ
  previousChunkText : String
deriving DecidableEq

/-- The public result shape. -/
structure TranscriptionResult where
  text : String
  confidence : ℚ
  language : String
  segments : List Seg

/-- The transcription backend (`this.transcriber`), treated as an opaque
function from a window to a result or a failure. -/
def Backend : Type := Nat → Nat → Except String RawResult

/-- Segment adjustment (src/unnamed/part_002, lines 216-221):
`start/end := (chunk.timestamp?.[k] || 0) + currentOffset`,
`confidence := chunk.confidence || 1`. -/
def adjustSeg (offset : ℚ) (c : RawSeg) : Seg :=
  { start := ratAdd (c.ts0.getD 0) offset
    stop := ratAdd (c.ts1.getD 0) offset
    text := c.text
    confidence := c.confidence.getD 1 }

/-- The `chunkText` local of the chunk loop (src/unnamed/part_002, lines
194-202): the trimmed backend text, deduplicated against the previous
chunk's text when there is one and this is not the first window. -/
def dedupedText (st : StitchState) (result : RawResult) (start : Nat) : String :=
  if st.previousChunkText ≠ "" ∧ 0 < start then
    removeRepetitiveText (jsTrim result.text) st.previousChunkText
  else jsTrim result.text

/-- One iteration of the chunk loop of `WhisperService.transcribeInChunks`
(src/unnamed/part_002, lines 163-235), with `end = min(start + chunkSize,
N)` inlined.  The sub-1-second skip and the repetitive-skip use
`continue`, which also skips the `currentOffset = start / sampleRate`
update at the bottom of the `try` block; a caught backend error appends
the literal `' [CHUNK_ERROR]'` marker and changes nothing else. -/
def stepChunk (tr : Backend) (N : Nat) (st : StitchState) (start : Nat) : StitchState :=
  if min (start + chunkSize) N - start < sampleRate then st
  else
    match tr start (min (start + chunkSize) N) with
    | .error _ => { st with allText := st.allText ++ " [CHUNK_ERROR]" }
    | .ok result =>
      if result.text ≠ "" ∧ jsTrim result.text ≠ "" then
        if isRepetitiveText (dedupedText st result start) ∧
            (dedupedText st result start).length < 20 then st
        else
          { allText := st.allText ++ (if st.allText ≠ "" then " " else "") ++
              dedupedText st result start
            allSegments := st.allSegments ++
              (if 0 < result.chunks.length then result.chunks.map (adjustSeg st.currentOffset)
               else [])
            currentOffset := mkRat start sampleRate
            previousChunkText := dedupedText st result start }
      else
        { st with currentOffset := mkRat start sampleRate }

/-- Initial stitching state. -/
def initStitch : StitchState :=
  { allText := "", allSegments := [], currentOffset := 0, previousChunkText := "" }

/-- Final result assembly (src/unnamed/part_002, lines 237-249). -/
def finalizeStitch (st : StitchState) : TranscriptionResult :=
  let cleanedText := cleanFinalText st.allText
  { text := if cleanedText ≠ "" then cleanedText else "[BLANK_AUDIO]"
    confidence := 1
    language := "unknown"
    segments := st.allSegments }

/-- `WhisperService.transcribeInChunks` for a buffer of `N` samples, with
the backend as an opaque parameter. -/
def transcribeInChunks (tr : Backend) (N : Nat) : TranscriptionResult :=
  finalizeStitch (List.foldl (stepChunk tr N) initStitch (chunkStarts N))

/-! ### Worker process supervisor (`FasterWhisperService`, part_003) -/

/-- One queued request (`{ request, resolve, reject }`; the promise
callbacks are modelled by the event lists the transition functions
return). -/
structure PendingRequest where
  request : String
deriving DecidableEq

/-- The supervisor state relevant to lifecycle transitions:
`daemon !== null`, `isReady`, the request queue, and whether a
`setTimeout(startDaemon, 5000)` restart has been armed. -/
structure DaemonState where
  daemonAlive : Bool
  isReady : Bool
  requestQueue : List PendingRequest
  restartScheduled : Bool
deriving DecidableEq

/-- `handleResponse` outcome for one parsed line: resolution with the
parsed value, or rejection with the literal error message on a parse
failure. -/
def respOutcome {α : Type} (parse : String → Option α) (line : String) : Except String α :=
  match parse line with
  | some v => Except.ok v
  | none => Except.error "Invalid JSON response from daemon"

/-- Sequentially feed the complete lines of one stdout data event through
`handleResponse` (src/unnamed/part_003, lines 204-252): a line that is
empty after trimming is skipped; otherwise the oldest queued request is
shifted and resolved (parse success) or rejected (parse failure); a line
arriving with an empty queue is dropped. -/
def processLines {α : Type} (parse : String → Option α) :
    List PendingRequest → List String →
    List PendingRequest × List (PendingRequest × Except String α)
  | q, [] => (q, [])
  | q, line :: rest =>
    if jsTrim line = "" then processLines parse q rest
    else
      match parse (jsTrim line) with
      | some v =>
        match q with
        | [] => processLines parse [] rest
        | r :: q2 =>
          let res := processLines parse q2 rest
          (res.1, (r, Except.ok v) :: res.2)
      | none =>
        match q with
        | [] => processLines parse [] rest
        | r :: q2 =>
          let res := processLines parse q2 rest
          (res.1, (r, Except.error "Invalid JSON response from daemon") :: res.2)

/-- The stdout-side supervisor state: the carried-over partial line and
the pending-request queue. -/
structure StdoutState where
  stdoutBuffer : String
  requestQueue : List PendingRequest

/-- The stdout `data` handler (src/unnamed/part_003, lines 196-209):
append the chunk to the buffer, split on `'\n'`, keep the last
(incomplete) field as the new buffer, and hand every other field whose
trim is non-empty to `handleResponse`. -/
def onStdoutData {α : Type} (parse : String → Option α) (st : StdoutState) (data : String) :
    StdoutState × List (PendingRequest × Except String α) :=
  let parts := (splitChars (fun c => c == '\n') (st.stdoutBuffer ++ data).data).map String.mk
  let res := processLines parse st.requestQueue parts.dropLast
  ({ stdoutBuffer := parts.getLastD "", requestQueue := res.1 }, res.2)

/-- The non-empty trimmed complete lines produced by one data event. -/
def goodLines (ls : List String) : List String :=
  ls.filterMap (fun l => if jsTrim l = "" then none else some (jsTrim l))

/-- The `exit` handler (src/unnamed/part_003, lines 216-226): mark not
ready, clear the handle, and arm the 5-second restart timer.  The second
component lists the rejections it issues — none: the handler does not
touch the request queue. -/
def onExit (st : DaemonState) : DaemonState × List (PendingRequest × String) :=
  ({ st with isReady := false, daemonAlive := false, restartScheduled := true }, [])

/-- `sendRequest` (src/unnamed/part_003, lines 257-280): immediate
rejection when the daemon is absent or not ready, otherwise enqueue the
request (and write it to the worker's stdin, not modelled). -/
def sendRequest (audioPath : String) (st : DaemonState) : DaemonState × Option String :=
  if !st.daemonAlive || !st.isReady then (st, some "Whisper daemon not ready")
  else ({ st with requestQueue := st.requestQueue ++ [{ request := audioPath }] }, none)

/-- The 30-second per-request timeout callback of `sendRequest`
(src/unnamed/part_003, lines 272-278): find the request by its audio path;
if still queued, splice it out and reject it with `'Request timeout'`. -/
def onTimeout (audioPath : String) (st : DaemonState) :
    DaemonState × Option (PendingRequest × String) :=
  let i := st.requestQueue.findIdx (fun item => item.request == audioPath)
  if h : i < st.requestQueue.length then
    ({ st with requestQueue := st.requestQueue.eraseIdx i },
     some (st.requestQueue.get ⟨i, h⟩, "Request timeout"))
  else (st, none)

/-- `shutdown` (src/unnamed/part_003, lines 397-404): if the daemon handle
is set, send SIGTERM (not modelled further) and clear the handle and ready
flag.  Nothing else — in particular no listener removal and no timer
cancellation. -/
def shutdown (st : DaemonState) : DaemonState :=
  if st.daemonAlive then { st with daemonAlive := false, isReady := false } else st

/-! ### Concrete instances used by the theorems below -/

/-- Backend result for the first window of `cexBackend`: a segment
starting at 50 s (chunk-relative). -/
def cexResultA : RawResult :=
  { text := "hello there friend"
    chunks := [{ ts0 := some (mkRat 50 1), ts1 := some (mkRat 51 1),
                 text := "a", confidence := some 1 }] }

/-- Backend result for every later window of `cexBackend`: a segment
starting at 0 s (chunk-relative). -/
def cexResultB : RawResult :=
  { text := "more words here"
    chunks := [{ ts0 := some (mkRat 0 1), ts1 := some (mkRat 1 1),
                 text := "b", confidence := some 1 }] }

/-- An opaque backend whose per-chunk segments are legitimate
(chunk-relative timestamps inside the window) but expose the stitching
offset behaviour. -/
def cexBackend : Backend := fun start _ =>
  if start = 0 then Except.ok cexResultA else Except.ok cexResultB

/-- A backend that fails on the second window only. -/
def failBackend : Backend := fun start _ =>
  if start = 1840000 then Except.error "boom"
  else if start = 0 then Except.ok { text := "first words here", chunks := [] }
  else Except.ok { text := "third words here", chunks := [] }

/-- A ready supervisor with one request pending — the state at the moment
of a worker crash. -/
def crashedExample : DaemonState :=
  { daemonAlive := true, isReady := true
    requestQueue := [{ request := "a.wav" }], restartScheduled := false }

/-- A ready, idle supervisor about to be shut down explicitly. -/
def shutdownExample : DaemonState :=
  { daemonAlive := true, isReady := true, requestQueue := [], restartScheduled := false }

/-- A mid-stitch state (non-trivial accumulated text, offset 3/2, previous
chunk text set) used to witness the step lemmas. -/
def st6 : StitchState :=
  { allText := "prior text", allSegments := [], currentOffset := mkRat 3 2
    previousChunkText := "hello there friend" }

-- ===================== THEOREMS =====================

theorem ratAdd_eq (a b : ℚ) : ratAdd a b = a + b := by
  have ha : ((a.den : ℚ)) ≠ 0 := Nat.cast_ne_zero.mpr a.den_nz
  have hb : ((b.den : ℚ)) ≠ 0 := Nat.cast_ne_zero.mpr b.den_nz
  conv_rhs => rw [← Rat.num_div_den a, ← Rat.num_div_den b]
  rw [ratAdd, Rat.mkRat_eq_div]
  push_cast
  rw [div_add_div _ _ ha hb]
  ring_nf

theorem jsSplitWs_ne_nil (s : String) : jsSplitWs s ≠ [] := by
  unfold jsSplitWs
  split <;> simp

theorem tokens_toFinset_nonempty (s : String) :
    (jsSplitWs s).toFinset.Nonempty := by
  have h := jsSplitWs_ne_nil s
  cases hl : jsSplitWs s with
  | nil => exact absurd hl h
  | cons x xs =>
    exact ⟨x, by simp [hl]⟩

/-- Claim C7: the similarity scorer is Jaccard similarity over the sets of
lowercase whitespace-delimited tokens; the result is always in [0,1],
`similarity(a,a) = 1` for every non-empty `a`, and the result is `0`
whenever either input is empty. -/
theorem calculateSimilarity_props (a b : String) :
    (0 ≤ calculateSimilarity a b ∧ calculateSimilarity a b ≤ 1) ∧
    (a ≠ "" → calculateSimilarity a a = 1) ∧
    ((a = "" ∨ b = "") → calculateSimilarity a b = 0) := by
  refine ⟨?_, ?_, ?_⟩
  · by_cases h : a = "" ∨ b = ""
    · unfold calculateSimilarity
      rw [if_pos h]
      exact ⟨le_refl 0, zero_le_one⟩
    · unfold calculateSimilarity
      rw [if_neg h]
      dsimp only
      obtain ⟨x, hx⟩ := tokens_toFinset_nonempty (jsToLower a)
      have hcard : 0 < ((jsSplitWs (jsToLower a)).toFinset ∪ (jsSplitWs (jsToLower b)).toFinset).card :=
        Finset.card_pos.mpr ⟨x, Finset.mem_union_left _ hx⟩
      have hcardQ : (0 : ℚ) < (((jsSplitWs (jsToLower a)).toFinset ∪ (jsSplitWs (jsToLower b)).toFinset).card : ℚ) := by
        exact_mod_cast hcard
      rw [Rat.mkRat_eq_div]
      push_cast
      constructor
      · exact div_nonneg (by positivity) (le_of_lt hcardQ)
      · rw [div_le_one hcardQ]
        exact_mod_cast Finset.card_le_card
          (Finset.inter_subset_left.trans Finset.subset_union_left)
  · intro h
    unfold calculateSimilarity
    rw [if_neg (by simp [h])]
    dsimp only
    rw [Finset.inter_self, Finset.union_self]
    obtain ⟨x, hx⟩ := tokens_toFinset_nonempty (jsToLower a)
    have hcard : 0 < (jsSplitWs (jsToLower a)).toFinset.card := Finset.card_pos.mpr ⟨x, hx⟩
    rw [Rat.mkRat_eq_div]
    push_cast
    exact div_self (by exact_mod_cast hcard.ne')
  · intro h
    unfold calculateSimilarity
    rw [if_pos h]

/-- Witness for claim C7 at `a = "hello world"`, `b = ""`. -/
theorem calculateSimilarity_props_witness :
    (0 ≤ calculateSimilarity "hello world" "" ∧ calculateSimilarity "hello world" "" ≤ 1) ∧
    ("hello world" : String) ≠ "" ∧
    calculateSimilarity "hello world" "hello world" = 1 ∧
    calculateSimilarity "hello world" "" = 0 :=
  ⟨(calculateSimilarity_props "hello world" "").1,
   by decide,
   (calculateSimilarity_props "hello world" "").2.1 (by decide),
   (calculateSimilarity_props "hello world" "").2.2 (Or.inr rfl)⟩

/-- Counterexample to claim C4 as stated: on the spec's own example the
overlap remover returns its first argument unchanged, not `"foo bar"`. -/
theorem removeRepetitiveText_example_ne : removeRepetitiveText "hello world foo bar" "xyz hello world" ≠ "foo bar" := by
  decide

/-- Claim C4 (amended): `removeOverlap("hello world foo bar", "xyz hello world")`
returns `"hello world foo bar"` unchanged.  `maxOverlap = min(4/2, 3/2, 10)
= 1.5` bounds the scan to `i = 1`, where the compared spans are `"hello"`
(current prefix) and `"world"` (previous suffix) with similarity 0, below
the 0.7 threshold; the `i = 2` comparison that would match `"hello world"`
against `"hello world"` is never reached, so no tokens are removed. -/
theorem removeRepetitiveText_example : removeRepetitiveText "hello world foo bar" "xyz hello world" = "hello world foo bar" := by
  decide

theorem isRepetitiveText_short (t : String) (h : t.length < 20) :
    isRepetitiveText t = false := by
  unfold isRepetitiveText
  rw [if_pos (Or.inr h)]

theorem segIf_eq (off : ℚ) (l : List RawSeg) :
    (if 0 < l.length then l.map (adjustSeg off) else []) = l.map (adjustSeg off) := by
  cases l <;> simp

/-- The accepted-chunk branch of `stepChunk` in closed form: a successful
backend call with non-empty trimmed text always appends (the repetitive
discard branch is unreachable because `isRepetitiveText` is `false` below
20 characters). -/
theorem stepChunk_accept (tr : Backend) (N : Nat) (st : StitchState) (start : Nat)
    (result : RawResult)
    (hlen : sampleRate ≤ min (start + chunkSize) N - start)
    (hok : tr start (min (start + chunkSize) N) = Except.ok result)
    (htext : result.text ≠ "" ∧ jsTrim result.text ≠ "") :
    stepChunk tr N st start =
      { allText := st.allText ++ (if st.allText ≠ "" then " " else "") ++
          dedupedText st result start
        allSegments := st.allSegments ++ result.chunks.map (adjustSeg st.currentOffset)
        currentOffset := mkRat start sampleRate
        previousChunkText := dedupedText st result start } := by
  unfold stepChunk
  rw [if_neg (Nat.not_lt.mpr hlen), hok]
  dsimp only
  rw [if_pos htext]
  rcases Nat.lt_or_ge (dedupedText st result start).length 20 with hl | hl
  · rw [if_neg (by simp [isRepetitiveText_short _ hl]), segIf_eq]
  · rw [if_neg (fun hc => absurd hc.2 (Nat.not_lt.mpr hl)), segIf_eq]

theorem chunkStartsAux_lt (N : Nat) :
    ∀ (fuel s : Nat), ∀ x ∈ chunkStartsAux N fuel s, x < N := by
  intro fuel
  induction fuel with
  | zero => intro s x hx; simp [chunkStartsAux] at hx
  | succ n ih =>
    intro s x hx
    unfold chunkStartsAux at hx
    by_cases hs : s < N
    · rw [if_pos hs] at hx
      rcases List.mem_cons.mp hx with rfl | hx2
      · exact hs
      · exact ih _ x hx2
    · rw [if_neg hs] at hx
      simp at hx

/-- Counterexample to claim C5 as stated: the window list the claim gives
is not what the chunk planner produces for a 4,800,000-sample buffer. -/
theorem chunkWindows_claimed_ne :
    chunkWindows 4800000 ≠ [(0, 1920000), (1840000, 3360000), (3360000, 4800000)] := by
  decide

/-- Claim C5 (amended): for a 4,800,000-sample buffer with
`chunkSize = 1,920,000` and step `1,840,000`, the planner produces exactly
the windows `[0,1920000)`, `[1840000,3760000)`, `[3680000,4800000)`
(the starts advance by the step, not by the values in the original claim);
in general every produced window satisfies `end = min(start + chunkSize, N)`
and `start < N`, and the sequence is a finite list by construction,
stopping once `start ≥ N`. -/
theorem chunkWindows_spec :
    chunkWindows 4800000 = [(0, 1920000), (1840000, 3760000), (3680000, 4800000)] ∧
    ∀ N : Nat, (chunkWindows N).all
      (fun w => w.2 == min (w.1 + chunkSize) N && decide (w.1 < N)) = true := by
  constructor
  · decide
  · intro N
    rw [List.all_eq_true]
    intro w hw
    rcases List.mem_filterMap.mp hw with ⟨a, ha, heq⟩
    dsimp only at heq
    by_cases hskip : min (a + chunkSize) N - a < sampleRate
    · rw [if_pos hskip] at heq
      exact absurd heq (by simp)
    · rw [if_neg hskip] at heq
      injection heq with h
      subst h
      have haN : a < N := chunkStartsAux_lt N (N + 1) 0 a ha
      simp [haN]

/-- Counterexample to claim C6 as stated: with a legitimate opaque backend
(chunk-relative timestamps), the stitched segment starts are `[50, 0]` —
not non-decreasing — because the second window's segments are shifted by
the offset recorded before the update, which is the first window's start
time (0 s), not the second window's. -/
theorem segments_not_monotone :
    (transcribeInChunks cexBackend 2000000).segments.map Seg.start =
      [mkRat 50 1, mkRat 0 1] ∧
    ¬ List.Chain' (fun a b => a ≤ b)
      ((transcribeInChunks cexBackend 2000000).segments.map Seg.start) := by
  have h : (transcribeInChunks cexBackend 2000000).segments.map Seg.start =
      [mkRat 50 1, mkRat 0 1] := by decide
  refine ⟨h, ?_⟩
  rw [h]
  intro hc
  rcases List.chain'_cons.mp hc with ⟨hab, _⟩
  exact absurd hab (by decide)

/-- Claim C6 (amended): each accepted chunk's segments are shifted by the
value `currentOffsetSeconds` had when the iteration began, and
`currentOffsetSeconds` is set to `start / sampleRate` only after the
current chunk's segments have been adjusted, so it applies to the next
chunk's segments; the resulting segment sequence is therefore not
necessarily non-decreasing in `start` (see the counterexample). -/
theorem stepChunk_offset (tr : Backend) (N : Nat) (st : StitchState) (start : Nat)
    (result : RawResult)
    (hlen : sampleRate ≤ min (start + chunkSize) N - start)
    (hok : tr start (min (start + chunkSize) N) = Except.ok result)
    (htext : result.text ≠ "" ∧ jsTrim result.text ≠ "") :
    (stepChunk tr N st start).allSegments =
      st.allSegments ++ result.chunks.map (adjustSeg st.currentOffset) ∧
    (stepChunk tr N st start).currentOffset = mkRat start sampleRate := by
  rw [stepChunk_accept tr N st start result hlen hok htext]
  exact ⟨rfl, rfl⟩

/-- Witness for claim C6 at the second window of `cexBackend` from the
mid-stitch state `st6` (offset 3/2). -/
theorem stepChunk_offset_witness :
    (sampleRate ≤ min (1840000 + chunkSize) 2000000 - 1840000) ∧
    (cexBackend 1840000 (min (1840000 + chunkSize) 2000000) = Except.ok cexResultB) ∧
    (cexResultB.text ≠ "" ∧ jsTrim cexResultB.text ≠ "") ∧
    ((stepChunk cexBackend 2000000 st6 1840000).allSegments =
        st6.allSegments ++ cexResultB.chunks.map (adjustSeg st6.currentOffset) ∧
      (stepChunk cexBackend 2000000 st6 1840000).currentOffset = mkRat 1840000 sampleRate) :=
  ⟨by decide, rfl, by decide,
   stepChunk_offset cexBackend 2000000 st6 1840000 cexResultB (by decide) rfl
     (by decide)⟩

/-- Claim C8: the code returns the four-fold repetition unchanged.  The
two collapse regexes are anchored on `\b`, which only matches next to an
ASCII word character; the string contains none, so neither regex can
match, the string contains no sentence-terminal punctuation either, and
every later stage is the identity on it — contradicting both the claim
and the comment in the source that presents exactly this pattern as the
one being removed. -/
theorem cleanFinalText_jp :
    cleanFinalText "字幕は、字幕は、字幕は、字幕は、" = "字幕は、字幕は、字幕は、字幕は、" := by
  decide

/-- The collapse does work when the phrase contains word characters (so
`\b` can match): evidence that the regex model is faithful rather than
vacuous, and that the failure on the Japanese input is specifically the
word-boundary anchor. -/
theorem cleanFinalText_ascii_collapse :
    cleanFinalText "abc、abc、abc、abc、" = "abc、" := by
  decide

/-- Claim C9: a per-chunk backend failure is caught inside the loop — the
step function returns normally with the literal `' [CHUNK_ERROR]'` marker
appended and everything else unchanged — and the whole stitch is the fold
of that total step function over all planned windows, so the failure never
propagates past the chunk loop and later chunks are still processed. -/
theorem chunkErrorNonFatal :
    (∀ (tr : Backend) (N : Nat) (st : StitchState) (start : Nat) (e : String),
      sampleRate ≤ min (start + chunkSize) N - start →
      tr start (min (start + chunkSize) N) = Except.error e →
      stepChunk tr N st start = { st with allText := st.allText ++ " [CHUNK_ERROR]" }) ∧
    (∀ (tr : Backend) (N : Nat),
      transcribeInChunks tr N =
        finalizeStitch (List.foldl (stepChunk tr N) initStitch (chunkStarts N))) := by
  constructor
  · intro tr N st start e hlen herr
    unfold stepChunk
    rw [if_neg (Nat.not_lt.mpr hlen), herr]
  · intro tr N
    rfl

/-- Witness for claim C9: `failBackend` fails on the middle of three
windows; the step appends the marker, and the loop still accumulates the
third window's text after the marker. -/
theorem chunkErrorNonFatal_witness :
    (sampleRate ≤ min (1840000 + chunkSize) 4800000 - 1840000) ∧
    (failBackend 1840000 (min (1840000 + chunkSize) 4800000) = Except.error "boom") ∧
    (stepChunk failBackend 4800000 initStitch 1840000 =
      { initStitch with allText := initStitch.allText ++ " [CHUNK_ERROR]" }) ∧
    (transcribeInChunks failBackend 4800000 =
      finalizeStitch (List.foldl (stepChunk failBackend 4800000) initStitch
        (chunkStarts 4800000))) ∧
    (List.foldl (stepChunk failBackend 4800000) initStitch (chunkStarts 4800000)).allText =
      "first words here [CHUNK_ERROR] third words here" :=
  ⟨by decide, rfl,
   chunkErrorNonFatal.1 failBackend 4800000 initStitch 1840000 "boom" (by decide) rfl,
   chunkErrorNonFatal.2 failBackend 4800000,
   by decide⟩

/-- Claim C10: the discard branch of the chunk loop is unreachable.
`isRepetitiveText` returns `false` for any text shorter than 20
characters, so `isRepetitive ∧ length < 20` never holds, and every chunk
whose trimmed backend text is non-empty is appended to the accumulated
text (after overlap removal) and becomes the new `previousChunkText`. -/
theorem discardBranchUnreachable :
    (∀ t : String, t.length < 20 → isRepetitiveText t = false) ∧
    (∀ (tr : Backend) (N : Nat) (st : StitchState) (start : Nat) (result : RawResult),
      sampleRate ≤ min (start + chunkSize) N - start →
      tr start (min (start + chunkSize) N) = Except.ok result →
      result.text ≠ "" ∧ jsTrim result.text ≠ "" →
      (stepChunk tr N st start).allText =
        st.allText ++ (if st.allText ≠ "" then " " else "") ++ dedupedText st result start ∧
      (stepChunk tr N st start).previousChunkText = dedupedText st result start) := by
  constructor
  · exact isRepetitiveText_short
  · intro tr N st start result hlen hok htext
    rw [stepChunk_accept tr N st start result hlen hok htext]
    exact ⟨rfl, rfl⟩

/-- Witness for claim C10 at the first window of `cexBackend` from the
initial state. -/
theorem discardBranchUnreachable_witness :
    (("short text" : String).length < 20 ∧ isRepetitiveText "short text" = false) ∧
    (sampleRate ≤ min (0 + chunkSize) 2000000 - 0) ∧
    (cexBackend 0 (min (0 + chunkSize) 2000000) = Except.ok cexResultA) ∧
    (cexResultA.text ≠ "" ∧ jsTrim cexResultA.text ≠ "") ∧
    ((stepChunk cexBackend 2000000 initStitch 0).allText =
        initStitch.allText ++ (if initStitch.allText ≠ "" then " " else "") ++
          dedupedText initStitch cexResultA 0 ∧
      (stepChunk cexBackend 2000000 initStitch 0).previousChunkText =
        dedupedText initStitch cexResultA 0) :=
  ⟨⟨by decide, discardBranchUnreachable.1 "short text" (by decide)⟩,
   by decide, rfl, by decide,
   discardBranchUnreachable.2 cexBackend 2000000 initStitch 0 cexResultA (by decide)
     rfl (by decide)⟩

/-- The sequential line loop in closed form: the lines are matched against
the queue front-to-front, in order. -/
theorem processLines_eq {α : Type} (parse : String → Option α) :
    ∀ (ls : List String) (q : List PendingRequest),
      processLines parse q ls =
        (q.drop (goodLines ls).length,
         (q.zip (goodLines ls)).map (fun p => (p.1, respOutcome parse p.2))) := by
  intro ls
  induction ls with
  | nil => intro q; simp [processLines, goodLines]
  | cons l rest ih =>
    intro q
    by_cases he : jsTrim l = ""
    · simp [processLines, he, goodLines, ih q]
    · cases hp : parse (jsTrim l) with
      | some v =>
        cases q with
        | nil => simp [processLines, he, hp, ih, goodLines]
        | cons r q2 => simp [processLines, he, hp, ih, goodLines, respOutcome]
      | none =>
        cases q with
        | nil => simp [processLines, he, hp, ih, goodLines]
        | cons r q2 => simp [processLines, he, hp, ih, goodLines, respOutcome]

/-- Claim C1: worker response correlation is strict FIFO.  One stdout data
event appends to the buffer, splits on newlines keeping the incomplete
trailing field as the new buffer, and resolves each complete
non-empty-after-trim line (in order) against the oldest still-pending
request: the produced (request, outcome) pairs are exactly the zip of the
pending queue with those lines, so two back-to-back submissions are
matched in submission order even when both response lines arrive in a
single read event. -/
theorem fifoCorrelation {α : Type} (parse : String → Option α) (st : StdoutState)
    (data : String) :
    (onStdoutData parse st data).2 =
      (st.requestQueue.zip
        (goodLines
          (((splitChars (fun c => c == '\n') (st.stdoutBuffer ++ data).data).map
            String.mk).dropLast))).map
        (fun p => (p.1, respOutcome parse p.2)) ∧
    (onStdoutData parse st data).1.requestQueue =
      st.requestQueue.drop
        (goodLines
          (((splitChars (fun c => c == '\n') (st.stdoutBuffer ++ data).data).map
            String.mk).dropLast)).length ∧
    (onStdoutData parse st data).1.stdoutBuffer =
      ((splitChars (fun c => c == '\n') (st.stdoutBuffer ++ data).data).map
        String.mk).getLastD "" := by
  unfold onStdoutData
  dsimp only
  rw [processLines_eq]
  exact ⟨rfl, rfl, rfl⟩

/-- Counterexample to claim C2 as stated: at the moment of a crash with a
request pending, the exit handler issues no rejections at all and leaves
the queue untouched — it only clears the ready flag and handle and arms
the restart timer. -/
theorem onExit_rejects_nothing :
    crashedExample.requestQueue ≠ [] ∧
    (onExit crashedExample).2 = [] ∧
    (onExit crashedExample).1.requestQueue = crashedExample.requestQueue := by
  exact ⟨by decide, rfl, rfl⟩

/-- Claim C2 (amended): when the worker exits unexpectedly the supervisor
marks itself not ready, clears the handle and schedules a restart, but
does not reject the queued or in-flight requests; a request pending at the
moment of the crash is instead rejected by its own 30-second timeout with
the error `'Request timeout'` (not a worker-unavailable error), so it does
not hang indefinitely. -/
theorem crash_then_timeout (st : DaemonState) (p : String)
    (h : ∃ r ∈ st.requestQueue, r.request = p) :
    (onExit st).2 = [] ∧
    (onExit st).1.requestQueue = st.requestQueue ∧
    (onExit st).1.isReady = false ∧
    (onExit st).1.restartScheduled = true ∧
    ∃ r, (onTimeout p (onExit st).1).2 = some (r, "Request timeout") := by
  refine ⟨rfl, rfl, rfl, rfl, ?_⟩
  have hfind : st.requestQueue.findIdx (fun item => item.request == p) <
      st.requestQueue.length := by
    rcases h with ⟨r, hr, hrp⟩
    exact List.findIdx_lt_length_of_exists ⟨r, hr, beq_iff_eq.mpr hrp⟩
  unfold onTimeout onExit
  dsimp only
  rw [dif_pos hfind]
  exact ⟨_, rfl⟩

/-- Witness for claim C2 at `crashedExample` with its single pending
request `"a.wav"`. -/
theorem crash_then_timeout_witness :
    (∃ r ∈ crashedExample.requestQueue, r.request = "a.wav") ∧
    ((onExit crashedExample).2 = [] ∧
     (onExit crashedExample).1.requestQueue = crashedExample.requestQueue ∧
     (onExit crashedExample).1.isReady = false ∧
     (onExit crashedExample).1.restartScheduled = true ∧
     ∃ r, (onTimeout "a.wav" (onExit crashedExample).1).2 = some (r, "Request timeout")) :=
  ⟨⟨{ request := "a.wav" }, by decide, rfl⟩,
   crash_then_timeout crashedExample "a.wav" ⟨{ request := "a.wav" }, by decide, rfl⟩⟩

/-- Claim C3: explicit shutdown sends the termination signal and clears
the supervisor's state, and `shutdown` itself arms no restart — but the
SIGTERM'd worker's `exit` event still fires afterwards, and the exit
handler unconditionally schedules the 5-second restart.  So, contrary to
the claim (and to the intent of the `shutdown` cleanup), a restart is
scheduled following an explicit shutdown. -/
theorem restartScheduledAfterShutdown :
    (shutdown shutdownExample).daemonAlive = false ∧
    (shutdown shutdownExample).isReady = false ∧
    (shutdown shutdownExample).restartScheduled = false ∧
    (onExit (shutdown shutdownExample)).1.restartScheduled = true := by
  decide

end RecordingAI
